import Mathlib

/-
  Verification development for the Provision-ISR alarm server
  (src/alarm_server.py), a TCP gateway that receives alarm and
  heartbeat messages from surveillance devices and forwards
  qualifying alarm events to a paging service, gated by a daily
  time window.

  Shallow embedding conventions:
  * a Python `datetime.time` value is represented by its number of
    seconds since midnight (a `Nat`); Python compares times
    lexicographically by (hour, minute, second, microsecond), which
    agrees with the numeric order of seconds-since-midnight for the
    whole-second values that occur here;
  * Python strings are Lean `String`s; `str.upper()` / `str.lower()`
    are modelled by mapping `Char.toUpper` / `Char.toLower` over the
    characters (faithful for the ASCII data in play);
  * a parsed XML tree (`xml.etree.ElementTree.Element`) is the
    inductive `Element` below; `ET.fromstring` is an oracle parameter
    `parse : String -> Option Element` (`none` models `ET.ParseError`);
  * exceptions are modelled by `Except PyExc` / an exception flag:
    `PyExc.parseError` stands for `ET.ParseError`, `PyExc.otherError`
    for every other exception (AttributeError, ValueError, ...);
  * outbound I/O is instrumented: `Effects` counts the evaluations of
    `is_paging_time` and the outbound PagerDuty POST requests issued,
    and the responses written to the peer are collected in a list of
    the literal payload strings.
-/

/-! ## Time Window Gate (PagerDutyTrigger.is_paging_time) -/

/-- Seconds since midnight of the time-of-day h:m:s. -/
def timeOfDay (h m s : Nat) : Nat := h * 3600 + m * 60 + s

/-- Model of `PagerDutyTrigger.parse_time`: `datetime.strptime(_, "%H:%M")`
yields a time with the given hour and minute and zero seconds. -/
def parse_time (h m : Nat) : Nat := timeOfDay h m 0

/-- Model of `PagerDutyTrigger.is_paging_time` (src lines 38-43), as a pure
function of the configured start/end times and the current time of day. -/
def is_paging_time (start_t end_t now : Nat) : Bool :=
  if start_t ≤ end_t then
    decide (start_t ≤ now ∧ now < end_t)
  else
    decide (now ≥ start_t ∨ now < end_t)

/-- Default `PAGING_START_TIME` is the string "00:00" (src line 86). -/
def default_paging_start : Nat := parse_time 0 0

/-- Default `PAGING_END_TIME` is the string "23:59" (src line 87). -/
def default_paging_end : Nat := parse_time 23 59

/-! ## Python string primitives used by the handler -/

/-- Model of Python `str.upper()` (ASCII case mapping). -/
def pyUpper (s : String) : String := String.mk (s.data.map Char.toUpper)

/-- Model of Python `str.lower()` (ASCII case mapping). -/
def pyLower (s : String) : String := String.mk (s.data.map Char.toLower)

/-- Occurrence scan: does `p` occur as a contiguous block anywhere in `s`? -/
def listContains (p : List Char) : List Char → Bool
  | [] => List.isPrefixOf p []
  | c :: rest => List.isPrefixOf p (c :: rest) || listContains p rest

/-- Model of Python `sub in s` substring membership. -/
def pyContains (sub s : String) : Bool := listContains sub.data s.data

/-- Model of Python `s.startswith(p)`. -/
def pyStartsWith (p s : String) : Bool := List.isPrefixOf p.data s.data

/-- Index of the first position of `s` at which `pat` starts, if any. -/
def findIdx (pat : List Char) : List Char → Option Nat
  | [] => none
  | c :: rest =>
    if List.isPrefixOf pat (c :: rest) then some 0
    else (findIdx pat rest).map (· + 1)

/-- Fuel-bounded split at every occurrence of a non-empty separator; each
step consumes at least one character, so `s.length + 1` fuel always
suffices. -/
def pySplitList (sep : List Char) : Nat → List Char → List (List Char)
  | 0, s => [s]
  | fuel + 1, s =>
    match findIdx sep s with
    | none => [s]
    | some i => s.take i :: pySplitList sep fuel (s.drop (i + sep.length))

/-- Model of Python `s.split(sep)` for a non-empty separator: in particular
the split of the empty string is the one-element list containing the empty
string. -/
def pySplit (sep s : String) : List String :=
  (pySplitList sep.data (s.data.length + 1) s.data).map String.mk

/-- Model of the allow-list construction (src line 89):
`os.getenv("PAGERDUTY_ALERT_TYPES", "").upper().split(",")`.
The environment variable is `none` when unset. -/
def pagerduty_alert_types (env : Option String) : List String :=
  pySplit "," (pyUpper (env.getD ""))

/-! ## XML element model -/

/-- Model of a parsed `xml.etree.ElementTree.Element`: tag name, attributes,
text content (`none` models Python `None`) and child elements in document
order. -/
inductive Element : Type where
  | mk (tag : String) (attrs : List (String × String))
       (text : Option String) (children : List Element)

/-- Tag name of an element. -/
def Element.tag : Element → String
  | .mk t _ _ _ => t

/-- Attribute list of an element. -/
def Element.attrs : Element → List (String × String)
  | .mk _ a _ _ => a

/-- Text content of an element (`none` models Python `None`). -/
def Element.text : Element → Option String
  | .mk _ _ tx _ => tx

/-- Child elements, in document order. -/
def Element.children : Element → List Element
  | .mk _ _ _ c => c

mutual
/-- First node with the given tag in the tree rooted at `e` (the root `e`
included), in document order: a node before its descendants. -/
def findInElement (t : String) : Element → Option Element
  | Element.mk tg at_ tx ch =>
    if tg = t then some (Element.mk tg at_ tx ch)
    else findInForest t ch
/-- First node with the given tag in a forest, in document order: a whole
subtree before its right siblings. -/
def findInForest (t : String) : List Element → Option Element
  | [] => none
  | e :: es =>
    match findInElement t e with
    | some r => some r
    | none => findInForest t es
end

/-- Model of `xml_root.find(".//t")`: first descendant of the root (the root
itself excluded) with tag `t`, in document order. -/
def findDesc (t : String) (root : Element) : Option Element :=
  findInForest t root.children

/-! ## Message Classifier (ProvisionISRHandler.identify_request_type) -/

/-- Model of `ProvisionISRHandler.identify_request_type` (src lines 137-142). -/
def identify_request_type (xml_root : Element) : String :=
  if (findDesc "alarmStatusInfo" xml_root).isSome then "alarm"
  else if (findDesc "DataTime" xml_root).isSome ∧ (findDesc "DeviceInfo" xml_root).isSome then
    "heartbeat"
  else "unknown"

/-! ## Instrumented effects and the alarm pipeline -/

/-- Exceptions that the two `except` clauses of the handler distinguish:
`parseError` models `xml.etree.ElementTree.ParseError`, `otherError` every
other exception (AttributeError, ValueError, IndexError, ...). -/
inductive PyExc : Type where
  | parseError
  | otherError
deriving DecidableEq, Repr

/-- Instrumentation record: how many times `is_paging_time` was evaluated and
how many outbound PagerDuty incident POSTs were issued. -/
structure Effects where
  gateChecks : Nat
  requests : Nat
deriving DecidableEq, Repr

/-- Pointwise addition of instrumentation records. -/
def Effects.add (a b : Effects) : Effects :=
  ⟨a.gateChecks + b.gateChecks, a.requests + b.requests⟩

/-- Model of `PagerDutyTrigger.trigger_incident` (src lines 45-78): evaluate
`is_paging_time` once; if it is false, return without any outbound request,
otherwise issue exactly one outbound POST to the paging API. -/
def trigger_incident (start_t end_t now : Nat) : Effects :=
  if is_paging_time start_t end_t now then ⟨1, 1⟩ else ⟨1, 0⟩

/-- Model of `ProvisionISRHandler.process_alarm` (src lines 219-229): if the
uppercased alarm type is in the allow-list, call `trigger_incident` (which
performs the only window check); otherwise do nothing. The alarm id, name and
device info only feed the title/details strings and are omitted. -/
def process_alarm (alert_types : List String) (start_t end_t now : Nat)
    (alarm_type : String) : Effects :=
  if pyUpper alarm_type ∈ alert_types then trigger_incident start_t end_t now
  else ⟨0, 0⟩

/-- Model of the loop of `ProvisionISRHandler.handle_alarm` (src lines
154-164): walk the children of `alarmStatusInfo` in order; reading
`alarm.text.lower()` raises (AttributeError) when the text is `None`;
children whose lowered status text equals "true" are collected as tasks. -/
def collect_alarms : List Element → Except PyExc (List String)
  | [] => .ok []
  | a :: rest =>
    match a.text with
    | none => .error .otherError
    | some t =>
      if pyLower t = "true" then
        (collect_alarms rest).map (fun l => a.tag :: l)
      else collect_alarms rest

/-- Total effects of a list of gathered alarm tasks. -/
def sumEffects : List Effects → Effects :=
  List.foldr Effects.add ⟨0, 0⟩

/-- Model of `ProvisionISRHandler.handle_alarm` (src lines 149-166): find the
`alarmStatusInfo` descendant, collect the tasks for the active events (an
exception during the loop aborts before any task is awaited, so no request is
issued), then gather the created `process_alarm` tasks. -/
def handle_alarm (alert_types : List String) (start_t end_t now : Nat)
    (xml_root : Element) : Except PyExc Effects :=
  match findDesc "alarmStatusInfo" xml_root with
  | none => .error .otherError
  | some info =>
    (collect_alarms info.children).map
      (fun tys => sumEffects (tys.map (process_alarm alert_types start_t end_t now)))

/-! ## XML Document Splitter (ProvisionISRHandler.split_xml_documents) -/

/-- The literal characters of the regex fragment `<\?xml`. -/
def xmlDecl : List Char := ['<', '?', 'x', 'm', 'l']

/-- The literal characters of the regex fragment `<\/config>`. -/
def configClose : List Char := ['<', '/', 'c', 'o', 'n', 'f', 'i', 'g', '>']

/-- One `re.findall` scan for the pattern `(<\?xml.*?<\/config>)` with
`re.DOTALL`: each match starts at the leftmost remaining occurrence of
`<?xml` followed (non-greedily, hence at the earliest possible position) by
`</config>`; scanning resumes right after each match. `fuel` bounds the
number of matches; every match consumes at least one character, so
`s.length + 1` fuel is always enough. -/
def splitAux : Nat → List Char → List (List Char)
  | 0, _ => []
  | fuel + 1, s =>
    match findIdx xmlDecl s with
    | none => []
    | some i =>
      match findIdx configClose ((s.drop i).drop 5) with
      | none => []
      | some j =>
        ((s.drop i).take (5 + j + 9)) ::
          splitAux fuel ((s.drop i).drop (5 + j + 9))

/-- Model of `ProvisionISRHandler.split_xml_documents` (src lines 133-135):
`re.findall` of the raw pattern `(<\?xml.*?<\/config>)` over `data` with
`re.DOTALL`. -/
def split_xml_documents (data : String) : List String :=
  (splitAux (data.data.length + 1) data.data).map String.mk

/-! ## Per-document processing loop (ProvisionISRHandler.process_request) -/

/-- Dispatch of one parsed raw-XML document inside the loop of
`process_request` (src lines 115-123): heartbeats and unknown messages are
logged only; alarm documents run `handle_alarm`. -/
def processDoc (alert_types : List String) (start_t end_t now : Nat)
    (xml_root : Element) : Except PyExc Effects :=
  if identify_request_type xml_root = "heartbeat" then .ok ⟨0, 0⟩
  else if identify_request_type xml_root = "alarm" then
    handle_alarm alert_types start_t end_t now xml_root
  else .ok ⟨0, 0⟩

/-- The document loop of `process_request` (src lines 112-124): parse and
process each extracted document in order; the first exception aborts the
loop (effects already produced by earlier documents persist), carrying
whether it was an `ET.ParseError` or another exception. -/
def processDocs (parse : String → Option Element) (alert_types : List String)
    (start_t end_t now : Nat) : List String → Effects × Option PyExc
  | [] => (⟨0, 0⟩, none)
  | d :: rest =>
    match parse d with
    | none => (⟨0, 0⟩, some .parseError)
    | some root =>
      match processDoc alert_types start_t end_t now root with
      | .error e => (⟨0, 0⟩, some e)
      | .ok eff =>
        (Effects.add eff (processDocs parse alert_types start_t end_t now rest).1,
         (processDocs parse alert_types start_t end_t now rest).2)

/-! ## HTTP POST branch -/

/-- First line of a request, as Python `request.splitlines()[0]`. -/
def pyFirstLine (s : String) : String :=
  String.mk (s.data.takeWhile (fun c => ¬(c = '\n' ∨ c = '\r')))

/-- Fuel-bounded whitespace tokenizer; every step consumes at least one
character, so `s.length + 1` fuel always suffices. -/
def pySplitWsAux : Nat → List Char → List (List Char)
  | 0, _ => []
  | _, [] => []
  | fuel + 1, c :: rest =>
    if c.isWhitespace then pySplitWsAux fuel rest
    else
      (c :: rest.takeWhile (fun d => ¬ d.isWhitespace)) ::
        pySplitWsAux fuel (rest.dropWhile (fun d => ¬ d.isWhitespace))

/-- Model of Python `s.split()` with no argument: split on whitespace runs,
discarding empty pieces. -/
def pySplitWs (s : String) : List String :=
  (pySplitWsAux (s.data.length + 1) s.data).map String.mk

/-- Split `s` at the first occurrence of `sep`, if any. -/
def splitFirst (sep s : List Char) : Option (List Char × List Char) :=
  match findIdx sep s with
  | none => none
  | some i => some (s.take i, s.drop (i + sep.length))

/-- Model of `ProvisionISRHandler.parse_http_post` (src lines 180-185):
split the request at the first blank line (absence raises ValueError), read
the path as the second whitespace token of the first line (absence raises
IndexError). The header dictionary is only used for logging and is not
modelled. -/
def parse_http_post (data : String) : Except PyExc (String × String) :=
  match splitFirst "\r\n\r\n".data data.data with
  | none => .error .otherError
  | some (_, body) =>
    match (pySplitWs (pyFirstLine data))[1]? with
    | none => .error .otherError
    | some path => .ok (path, String.mk body)

/-- Model of `ProvisionISRHandler.extract_http_device_info` (src lines
212-217): reading `.text` of a missing `mac` / `sn` / `deviceName` element
raises AttributeError. -/
def extract_http_device_info (xml_root : Element) :
    Except PyExc (List (String × Option String)) :=
  match findDesc "mac" xml_root, findDesc "sn" xml_root,
      findDesc "deviceName" xml_root with
  | some m, some s, some d =>
    .ok [("mac", m.text), ("sn", s.text), ("deviceName", d.text)]
  | _, _, _ => .error .otherError

/-- Model of `ProvisionISRHandler.process_http_alarm` (src lines 231-242):
`smart_type.upper()` raises when the smartType text was `None`; otherwise the
allow-list decides whether `trigger_incident` runs. -/
def process_http_alarm (alert_types : List String) (start_t end_t now : Nat)
    (smart_type : Option String) : Except PyExc Effects :=
  match smart_type with
  | none => .error .otherError
  | some t =>
    .ok (if pyUpper t ∈ alert_types then trigger_incident start_t end_t now
         else ⟨0, 0⟩)

/-- Model of `ProvisionISRHandler.handle_http_alarm` (src lines 192-204):
an `ET.ParseError` of the body is caught and logged internally (no response,
no request); reading `.text` of a missing `smartType` raises; then device
info extraction and the alarm decision run. -/
def handle_http_alarm (parse : String → Option Element)
    (alert_types : List String) (start_t end_t now : Nat)
    (body : String) : Except PyExc Effects :=
  match parse body with
  | none => .ok ⟨0, 0⟩
  | some root =>
    match findDesc "smartType" root with
    | none => .error .otherError
    | some st =>
      match extract_http_device_info root with
      | .error e => .error e
      | .ok _ => process_http_alarm alert_types start_t end_t now st.text

/-- Model of `ProvisionISRHandler.handle_http_post` (src lines 168-178): a
path containing "SendKeepalive" is only logged (no response written); a path
containing "SendAlarmData" runs the HTTP alarm pipeline (no response
written); any other path gets the literal unknown-request error response.
The returned list collects the response payloads written. -/
def handle_http_post (parse : String → Option Element)
    (alert_types : List String) (start_t end_t now : Nat)
    (data : String) : Except PyExc (List String × Effects) :=
  match parse_http_post data with
  | .error e => .error e
  | .ok (path, body) =>
    if pyContains "SendKeepalive" path then .ok ([], ⟨0, 0⟩)
    else if pyContains "SendAlarmData" path then
      match handle_http_alarm parse alert_types start_t end_t now body with
      | .error e => .error e
      | .ok eff => .ok ([], eff)
    else .ok (["<error>Unknown HTTP POST request</error>"], ⟨0, 0⟩)

/-! ## Connection Dispatcher -/

/-- Model of `ProvisionISRHandler.process_request` (src lines 107-131):
route on the "POST" prefix; the raw-XML branch writes exactly one payload
(OK on success, the Invalid XML literal on `ET.ParseError`, the Internal
Server Error literal on any other exception); the HTTP branch writes
whatever `handle_http_post` wrote, with the same two exception handlers.
Returns the written payloads and the instrumented effects. -/
def process_request (parse : String → Option Element)
    (alert_types : List String) (start_t end_t now : Nat)
    (data : String) : List String × Effects :=
  if pyStartsWith "POST" data then
    match handle_http_post parse alert_types start_t end_t now data with
    | .ok (resps, eff) => (resps, eff)
    | .error .parseError => (["<error>Invalid XML</error>"], ⟨0, 0⟩)
    | .error .otherError => (["<error>Internal Server Error</error>"], ⟨0, 0⟩)
  else
    match processDocs parse alert_types start_t end_t now
        (split_xml_documents data) with
    | (eff, none) => (["<response>OK</response>"], eff)
    | (eff, some .parseError) => (["<error>Invalid XML</error>"], eff)
    | (eff, some .otherError) => (["<error>Internal Server Error</error>"], eff)

/-- Model of `ProvisionISRHandler.handle_client` (src lines 95-105): an empty
read is only logged (nothing written); otherwise `process_request` runs; the
writer is closed at the end of the handler in either case. The model assumes
socket writes do not themselves fail, so processing always reaches the close;
the Bool records that the close was executed. -/
def handle_client (parse : String → Option Element)
    (alert_types : List String) (start_t end_t now : Nat)
    (data : String) : List String × Effects × Bool :=
  if data = "" then ([], ⟨0, 0⟩, true)
  else
    ((process_request parse alert_types start_t end_t now data).1,
     (process_request parse alert_types start_t end_t now data).2, true)

/-! ## Shared helper lemmas -/

/-- Adding the zero record on the right is the identity. -/
theorem Effects.add_zero_right (a : Effects) : Effects.add a ⟨0, 0⟩ = a := by
  cases a; simp [Effects.add]

/-- Adding the zero record on the left is the identity. -/
theorem Effects.add_zero_left (a : Effects) : Effects.add ⟨0, 0⟩ a = a := by
  cases a; simp [Effects.add]

/-- Addition of instrumentation records is associative. -/
theorem Effects.add_assoc (a b c : Effects) :
    Effects.add a (Effects.add b c) = Effects.add (Effects.add a b) c := by
  cases a; cases b; cases c
  simp [Effects.add, Nat.add_assoc]

/-- Uppercasing yields the empty string only on the empty string. -/
theorem pyUpper_eq_empty {s : String} (h : pyUpper s = "") : s = "" := by
  have hd : s.data.map Char.toUpper = [] := congrArg String.data h
  have hnil : s.data = [] := by
    cases hs : s.data with
    | nil => rfl
    | cons c cs => rw [hs] at hd; simp at hd
  cases s with
  | mk d => cases hnil; rfl

/-! ## C1: Time Window Gate semantics -/

/-- C1: for every configured pair (start, end) and every current time `now`,
when start ≤ end the gate is true iff start ≤ now < end, and when
start > end it is true iff now ≥ start or now < end; start inclusive, end
exclusive in both cases. -/
theorem C1_time_window_gate (start_t end_t now : Nat) :
    (start_t ≤ end_t →
      (is_paging_time start_t end_t now = true ↔ start_t ≤ now ∧ now < end_t)) ∧
    (end_t < start_t →
      (is_paging_time start_t end_t now = true ↔ now ≥ start_t ∨ now < end_t)) := by
  constructor
  · intro h; simp [is_paging_time, h]
  · intro h
    have hn : ¬ start_t ≤ end_t := Nat.not_le.mpr h
    simp [is_paging_time, hn]

/-- Witness for C1 at the example of the spec: start 22:00, end 06:00
(a wrapping window), now 23:30 is inside. -/
theorem C1_time_window_gate_witness :
    is_paging_time (parse_time 22 0) (parse_time 6 0) (timeOfDay 23 30 0) = true :=
  ((C1_time_window_gate (parse_time 22 0) (parse_time 6 0)
      (timeOfDay 23 30 0)).2 (by decide)).mpr (Or.inl (by decide))

/-! ## C8: the default window does not cover the whole day -/

/-- C8 counterexample: at 23:59:00 the gate with the default configuration
("00:00" to "23:59") returns false, so the default window does not cover
every time of day. -/
theorem C8_default_window_counterexample :
    is_paging_time default_paging_start default_paging_end (parse_time 23 59)
      = false := by decide

/-- C8 (amended): with the default start "00:00" and end "23:59", the gate is
true exactly at the times strictly before 23:59:00; the final minute of the
day is outside the window. -/
theorem C8_default_window_amended (now : Nat) :
    is_paging_time default_paging_start default_paging_end now
      = decide (now < parse_time 23 59) := by
  simp [is_paging_time, default_paging_start, default_paging_end,
    parse_time, timeOfDay]

/-! ## C10: unset or empty allow-list -/

/-- C10: when `PAGERDUTY_ALERT_TYPES` is unset or empty, the allow-list is
the one-element list containing the empty string, and no alarm event with a
non-empty type name is ever forwarded to the dispatcher. -/
theorem C10_empty_allowlist (env : Option String)
    (henv : env = none ∨ env = some "")
    (start_t end_t now : Nat) (ty : String) (hty : ty ≠ "") :
    pagerduty_alert_types env = [""] ∧
    process_alarm (pagerduty_alert_types env) start_t end_t now ty = ⟨0, 0⟩ := by
  have hl : pagerduty_alert_types env = [""] := by
    rcases henv with h | h <;> subst h <;> rfl
  refine ⟨hl, ?_⟩
  rw [hl]
  have hmem : ¬ (pyUpper ty ∈ ([""] : List String)) := by
    intro hup
    exact hty (pyUpper_eq_empty (List.mem_singleton.mp hup))
  simp only [process_alarm]
  rw [if_neg hmem]

/-- Witness for C10: with the variable unset and the concrete type "MOTION",
no request is issued. -/
theorem C10_empty_allowlist_witness :
    pagerduty_alert_types none = [""] ∧
    process_alarm (pagerduty_alert_types none) 0 86340 43200 "MOTION" = ⟨0, 0⟩ :=
  C10_empty_allowlist none (Or.inl rfl) 0 86340 43200 "MOTION" (by decide)

/-! ## C7: the window check is single, not double -/

/-- C7 counterexample: for a concrete qualifying alarm event (type "a" with
allow-list ["A"]), the whole decision-plus-dispatch path evaluates the
window gate exactly once, not twice: `process_alarm` itself performs no
window check before calling `trigger_incident`. -/
theorem C7_double_gate_counterexample :
    (process_alarm ["A"] 0 86340 100 "a").gateChecks = 1 := by decide

/-- C7 (amended): for every qualifying alarm event the paging-window check is
performed exactly once, inside the trigger call of the Incident Dispatcher
(the Alert Decision Engine performs no separate check); and whenever the
gate evaluates false, the trigger call returns without any outbound
request. -/
theorem C7_single_gate_amended (alert_types : List String)
    (start_t end_t now : Nat) (ty : String)
    (h : pyUpper ty ∈ alert_types) :
    process_alarm alert_types start_t end_t now ty
        = trigger_incident start_t end_t now ∧
    (trigger_incident start_t end_t now).gateChecks = 1 ∧
    (is_paging_time start_t end_t now = false →
      (trigger_incident start_t end_t now).requests = 0) := by
  refine ⟨by simp [process_alarm, h], ?_, ?_⟩
  · unfold trigger_incident; split <;> rfl
  · intro hg; simp [trigger_incident, hg]

/-- Witness for C7 (amended) at a concrete qualifying event outside the
window: the gate is checked once and no request goes out. -/
theorem C7_single_gate_amended_witness :
    (trigger_incident 0 86340 90000).gateChecks = 1 ∧
    (trigger_incident 0 86340 90000).requests = 0 :=
  ⟨(C7_single_gate_amended ["A"] 0 86340 90000 "a" (by decide)).2.1,
   (C7_single_gate_amended ["A"] 0 86340 90000 "a" (by decide)).2.2 (by decide)⟩

/-! ## C4: Message Classifier -/

/-- C4: a document is classified "alarm" iff it has an `alarmStatusInfo`
descendant; otherwise it is "heartbeat" iff it has both a `DataTime` and a
`DeviceInfo` descendant; otherwise "unknown"; in particular a document with
all three descendants is classified "alarm". -/
theorem C4_message_classifier (root : Element) :
    (identify_request_type root = "alarm" ↔
      (findDesc "alarmStatusInfo" root).isSome = true) ∧
    (identify_request_type root = "heartbeat" ↔
      ((findDesc "alarmStatusInfo" root).isSome = false ∧
       (findDesc "DataTime" root).isSome = true ∧
       (findDesc "DeviceInfo" root).isSome = true)) ∧
    (identify_request_type root = "unknown" ↔
      ((findDesc "alarmStatusInfo" root).isSome = false ∧
       ¬((findDesc "DataTime" root).isSome = true ∧
         (findDesc "DeviceInfo" root).isSome = true))) ∧
    ((findDesc "alarmStatusInfo" root).isSome = true →
     (findDesc "DataTime" root).isSome = true →
     (findDesc "DeviceInfo" root).isSome = true →
     identify_request_type root = "alarm") := by
  unfold identify_request_type
  by_cases h1 : (findDesc "alarmStatusInfo" root).isSome <;>
    by_cases h2 : (findDesc "DataTime" root).isSome <;>
      by_cases h3 : (findDesc "DeviceInfo" root).isSome <;>
        simp [h1, h2, h3]

/-- Concrete document with all three classifier-relevant descendants. -/
def treeAll : Element :=
  .mk "config" [] none
    [.mk "alarmStatusInfo" [] none [],
     .mk "DataTime" [] (some "2024-01-01") [],
     .mk "DeviceInfo" [] none []]

/-- Witness for C4: the concrete document with `alarmStatusInfo`, `DataTime`
and `DeviceInfo` descendants is classified "alarm", not "heartbeat". -/
theorem C4_message_classifier_witness :
    identify_request_type treeAll = "alarm" :=
  (C4_message_classifier treeAll).2.2.2 rfl rfl rfl

/-! ## C2: a single active allow-listed event, inside vs outside the window -/

/-- C2: for an alarm message with exactly one alarm event whose status text
lowers to "true" and whose uppercased type is allow-listed, processing the
message issues exactly one outbound incident request when the current time is
inside the paging window, and zero when it is outside. -/
theorem C2_single_event_requests (alert_types : List String)
    (start_t end_t now : Nat) (root info a : Element) (t : String)
    (hfind : findDesc "alarmStatusInfo" root = some info)
    (hch : info.children = [a])
    (htext : a.text = some t)
    (hstatus : pyLower t = "true")
    (htype : pyUpper a.tag ∈ alert_types) :
    (is_paging_time start_t end_t now = true →
      handle_alarm alert_types start_t end_t now root = .ok ⟨1, 1⟩) ∧
    (is_paging_time start_t end_t now = false →
      handle_alarm alert_types start_t end_t now root = .ok ⟨1, 0⟩) := by
  have hc : collect_alarms info.children = .ok [a.tag] := by
    rw [hch]
    simp [collect_alarms, htext, hstatus, Except.map]
  have hh : handle_alarm alert_types start_t end_t now root =
      .ok (process_alarm alert_types start_t end_t now a.tag) := by
    simp [handle_alarm, hfind, hc, Except.map, sumEffects, Effects.add_zero_right]
  rw [hh]
  unfold process_alarm
  rw [if_pos htype]
  unfold trigger_incident
  constructor
  · intro hg; rw [hg]; simp
  · intro hg; rw [hg]; simp

/-- Concrete alarm child element, status text "TRUE". -/
def motionEl : Element := .mk "motion" [("id", "7"), ("name", "cam1")] (some "TRUE") []

/-- Concrete `alarmStatusInfo` element with the single event above. -/
def infoG : Element := .mk "alarmStatusInfo" [] none [motionEl]

/-- Concrete parsed alarm document. -/
def treeG : Element := .mk "config" [] none [infoG]

/-- Witness for C2: with the allow-list ["MOTION"] and a time inside the
default window, the concrete single-event alarm document yields exactly one
outbound request. -/
theorem C2_single_event_requests_witness :
    handle_alarm ["MOTION"] 0 86340 43200 treeG = .ok ⟨1, 1⟩ :=
  (C2_single_event_requests ["MOTION"] 0 86340 43200 treeG infoG motionEl "TRUE"
      rfl rfl rfl (by decide) (by decide)).1 (by decide)

/-! ## Concrete documents and a concrete parse oracle for the witnesses -/

/-- Concrete well-formed alarm document; `ET.fromstring` of it yields
`treeG`. -/
def docG : String :=
  "<?xml version=\"1.0\"?><config><alarmStatusInfo><motion id=\"7\" name=\"cam1\">TRUE</motion></alarmStatusInfo></config>"

/-- Concrete document that matches the splitter pattern but is malformed XML
(the `<a>` element is never closed), so `ET.fromstring` raises
`ET.ParseError`. -/
def docB : String := "<?xml version=\"1.0\"?><config><a></config>"

/-- Concrete well-formed alarm document whose alarm element `<motion/>` is
empty, so its text is Python `None`; `ET.fromstring` of it yields `treeN`. -/
def docN : String :=
  "<?xml version=\"1.0\"?><config><alarmStatusInfo><motion/></alarmStatusInfo></config>"

/-- Parsed form of the empty alarm element `<motion/>`: text `none`. -/
def motionN : Element := .mk "motion" [] none []

/-- Parsed `alarmStatusInfo` of `docN`. -/
def infoN : Element := .mk "alarmStatusInfo" [] none [motionN]

/-- Parsed form of `docN`. -/
def treeN : Element := .mk "config" [] none [infoN]

/-- Concrete parse oracle agreeing with `ET.fromstring` on the three
documents above: the two well-formed ones parse to their trees, everything
else (including `docB`) fails. -/
def parseEx : String → Option Element :=
  fun s => if s = docG then some treeG else if s = docN then some treeN else none

/-! ## Loop lemmas shared by the buffer-level claims -/

/-- A child with absent text makes the alarm loop raise before gathering. -/
theorem collect_alarms_none {l : List Element} {a : Element}
    (ha : a ∈ l) (htext : a.text = none) :
    collect_alarms l = .error .otherError := by
  induction l with
  | nil => cases ha
  | cons b rest ih =>
    rcases List.mem_cons.mp ha with rfl | hmem
    · simp [collect_alarms, htext]
    · cases hb : b.text with
      | none => simp [collect_alarms, hb]
      | some t =>
        simp only [collect_alarms, hb]
        rw [ih hmem]
        split <;> rfl

/-- An alarm document with some event of absent text makes `handle_alarm`
raise `otherError`. -/
theorem handle_alarm_text_none {alert_types : List String}
    {start_t end_t now : Nat} {root info a : Element}
    (hfind : findDesc "alarmStatusInfo" root = some info)
    (ha : a ∈ info.children) (htext : a.text = none) :
    handle_alarm alert_types start_t end_t now root = .error .otherError := by
  simp [handle_alarm, hfind, collect_alarms_none ha htext, Except.map]

/-- Splitting the document loop at a position all of whose predecessors
parse and process without an exception: the effects accumulate and the tail
decides the exception outcome. -/
theorem processDocs_append_ok (parse : String → Option Element)
    (alert_types : List String) (start_t end_t now : Nat)
    (pre rest : List String)
    (h : ∀ d ∈ pre, ∃ r eff, parse d = some r ∧
      processDoc alert_types start_t end_t now r = .ok eff) :
    processDocs parse alert_types start_t end_t now (pre ++ rest) =
      (Effects.add (processDocs parse alert_types start_t end_t now pre).1
          (processDocs parse alert_types start_t end_t now rest).1,
        (processDocs parse alert_types start_t end_t now rest).2) := by
  induction pre with
  | nil =>
    simp [processDocs, Effects.add_zero_left]
  | cons d pre ih =>
    obtain ⟨r, eff, hp, hd⟩ := h d (List.mem_cons_self d pre)
    have h2 : ∀ x ∈ pre, ∃ r eff, parse x = some r ∧
        processDoc alert_types start_t end_t now r = .ok eff :=
      fun x hx => h x (List.mem_cons_of_mem _ hx)
    simp only [List.cons_append, processDocs, hp, hd, List.append_eq]
    rw [ih h2, Effects.add_assoc]

/-! ## C5: malformed raw XML -/

/-- C5 counterexample, refuting the claim at two concrete inputs. First, the
buffer "hello" is not XML at all, yet the handler answers with the OK
acknowledgment, not with the Invalid XML error (the splitter extracts no
document, so nothing is ever parsed). Second, a buffer whose first document
is a valid allow-listed alarm and whose second document fails parsing gets
the Invalid XML response but still issues one outbound incident request for
the first document. -/
theorem C5_invalid_xml_counterexample :
    ((process_request parseEx ["MOTION"] 0 86340 43200 "hello").1 =
        ["<response>OK</response>"] ∧
      (process_request parseEx ["MOTION"] 0 86340 43200 "hello").2.requests = 0) ∧
    ((process_request parseEx ["MOTION"] 0 86340 43200 (docG ++ docB)).1 =
        ["<error>Invalid XML</error>"] ∧
      (process_request parseEx ["MOTION"] 0 86340 43200 (docG ++ docB)).2.requests = 1) := by
  refine ⟨⟨rfl, rfl⟩, ?_, ?_⟩ <;>
    set_option maxRecDepth 1000000 in rfl

/-- C5 (amended): for a non-HTTP buffer, if the splitter extracts a document
that fails XML parsing and every extracted document before it parses and
processes without an exception, the handler writes the literal response
`<error>Invalid XML</error>`; the outbound requests issued are exactly those
of the documents processed before the failing one (so a buffer whose failing
document comes first issues none, but earlier documents may already have
paged). Buffers from which no failing document is extracted do not get this
response. -/
theorem C5_invalid_xml_amended (parse : String → Option Element)
    (alert_types : List String) (start_t end_t now : Nat)
    (data : String) (pre post : List String) (bad : String)
    (hnp : pyStartsWith "POST" data = false)
    (hsplit : split_xml_documents data = pre ++ bad :: post)
    (hbad : parse bad = none)
    (hpre : ∀ d ∈ pre, ∃ r eff, parse d = some r ∧
      processDoc alert_types start_t end_t now r = .ok eff) :
    (process_request parse alert_types start_t end_t now data).1 =
      ["<error>Invalid XML</error>"] ∧
    (process_request parse alert_types start_t end_t now data).2 =
      (processDocs parse alert_types start_t end_t now pre).1 := by
  have hb : processDocs parse alert_types start_t end_t now (bad :: post) =
      (⟨0, 0⟩, some .parseError) := by
    simp [processDocs, hbad]
  have hall := processDocs_append_ok parse alert_types start_t end_t now
    pre (bad :: post) hpre
  rw [hb] at hall
  simp only [process_request, hnp, Bool.false_eq_true, if_false, hsplit, hall,
    Effects.add_zero_right]
  trivial

/-- Witness for C5 (amended) at the concrete buffer `docG ++ docB`: Invalid
XML response, and the only request is the one of the first document. -/
theorem C5_invalid_xml_amended_witness :
    (process_request parseEx ["MOTION"] 0 86340 43200 (docG ++ docB)).1 =
      ["<error>Invalid XML</error>"] ∧
    (process_request parseEx ["MOTION"] 0 86340 43200 (docG ++ docB)).2 =
      (processDocs parseEx ["MOTION"] 0 86340 43200 [docG]).1 :=
  C5_invalid_xml_amended parseEx ["MOTION"] 0 86340 43200 (docG ++ docB)
    [docG] [] docB rfl (by set_option maxRecDepth 1000000 in rfl)
    (by set_option maxRecDepth 1000000 in rfl)
    (by
      intro d hd
      rw [List.mem_singleton] at hd
      subst hd
      exact ⟨treeG, ⟨1, 1⟩, rfl, by set_option maxRecDepth 1000000 in rfl⟩)

/-! ## C9: alarm element with absent text -/

/-- C9: a raw alarm document containing an alarm element whose text is
absent makes processing raise before any dispatch decision for that message,
and the peer receives the Internal Server Error response instead of the OK
acknowledgment, even when earlier documents of the same buffer processed
successfully. -/
theorem C9_text_none_internal_error (parse : String → Option Element)
    (alert_types : List String) (start_t end_t now : Nat)
    (data : String) (pre post : List String) (bad : String)
    (root info a : Element)
    (hnp : pyStartsWith "POST" data = false)
    (hsplit : split_xml_documents data = pre ++ bad :: post)
    (hparse : parse bad = some root)
    (hfind : findDesc "alarmStatusInfo" root = some info)
    (ha : a ∈ info.children) (htext : a.text = none)
    (hpre : ∀ d ∈ pre, ∃ r eff, parse d = some r ∧
      processDoc alert_types start_t end_t now r = .ok eff) :
    handle_alarm alert_types start_t end_t now root = .error .otherError ∧
    (process_request parse alert_types start_t end_t now data).1 =
      ["<error>Internal Server Error</error>"] := by
  have hha := @handle_alarm_text_none alert_types start_t end_t now
    root info a hfind ha htext
  have hid : identify_request_type root = "alarm" := by
    simp [identify_request_type, hfind]
  have hpd : processDoc alert_types start_t end_t now root =
      .error .otherError := by
    simp [processDoc, hid, hha]
  have hb : processDocs parse alert_types start_t end_t now (bad :: post) =
      (⟨0, 0⟩, some .otherError) := by
    simp [processDocs, hparse, hpd]
  have hall := processDocs_append_ok parse alert_types start_t end_t now
    pre (bad :: post) hpre
  rw [hb] at hall
  refine ⟨hha, ?_⟩
  simp only [process_request, hnp, Bool.false_eq_true, if_false, hsplit, hall]

/-- Witness for C9: the buffer `docG ++ docN` whose first document pages
successfully and whose second document holds the empty `<motion/>` element
yields the Internal Server Error response. -/
theorem C9_text_none_internal_error_witness :
    handle_alarm ["MOTION"] 0 86340 43200 treeN = .error .otherError ∧
    (process_request parseEx ["MOTION"] 0 86340 43200 (docG ++ docN)).1 =
      ["<error>Internal Server Error</error>"] :=
  C9_text_none_internal_error parseEx ["MOTION"] 0 86340 43200 (docG ++ docN)
    [docG] [] docN treeN infoN motionN
    rfl (by set_option maxRecDepth 1000000 in rfl)
    (by set_option maxRecDepth 1000000 in rfl)
    rfl (List.mem_singleton.mpr rfl) rfl
    (by
      intro d hd
      rw [List.mem_singleton] at hd
      subst hd
      exact ⟨treeG, ⟨1, 1⟩, rfl, by set_option maxRecDepth 1000000 in rfl⟩)

/-! ## C6: responses per connection -/

/-- C6 counterexample, refuting the exactly-one-response invariant at two
concrete connections: an empty read receives no response payload at all, and
an HTTP POST whose path contains "SendKeepalive" also receives none. -/
theorem C6_one_response_counterexample :
    (handle_client parseEx ["MOTION"] 0 86340 43200 "").1.length = 0 ∧
    (handle_client parseEx ["MOTION"] 0 86340 43200
        "POST /SendKeepalive HTTP/1.1\r\nHost: x\r\n\r\n").1.length = 0 := by
  refine ⟨rfl, ?_⟩
  set_option maxRecDepth 1000000 in rfl

/-- C6 (amended): the dispatcher always reaches the close of the connection;
but the number of response payloads written is not always one: an empty read
writes none, a non-empty raw-framing (non-POST) buffer writes exactly one,
an HTTP POST whose parsed path contains "SendKeepalive" writes none, an
HTTP POST whose parsed path contains "SendAlarmData" (and not
"SendKeepalive") writes none whenever its body processing raises no
exception, and an HTTP POST whose parsed path contains neither recognized
substring writes exactly one response, the unknown-request error literal. -/
theorem C6_responses_amended (parse : String → Option Element)
    (alert_types : List String) (start_t end_t now : Nat) (data : String) :
    (handle_client parse alert_types start_t end_t now data).2.2 = true ∧
    (data = "" →
      (handle_client parse alert_types start_t end_t now data).1 = []) ∧
    (data ≠ "" → pyStartsWith "POST" data = false →
      (handle_client parse alert_types start_t end_t now data).1.length = 1) ∧
    (∀ path body, data ≠ "" → pyStartsWith "POST" data = true →
      parse_http_post data = .ok (path, body) →
      pyContains "SendKeepalive" path = true →
      (handle_client parse alert_types start_t end_t now data).1 = []) ∧
    (∀ path body eff, data ≠ "" → pyStartsWith "POST" data = true →
      parse_http_post data = .ok (path, body) →
      pyContains "SendKeepalive" path = false →
      pyContains "SendAlarmData" path = true →
      handle_http_alarm parse alert_types start_t end_t now body = .ok eff →
      (handle_client parse alert_types start_t end_t now data).1 = []) ∧
    (∀ path body, data ≠ "" → pyStartsWith "POST" data = true →
      parse_http_post data = .ok (path, body) →
      pyContains "SendKeepalive" path = false →
      pyContains "SendAlarmData" path = false →
      (handle_client parse alert_types start_t end_t now data).1 =
        ["<error>Unknown HTTP POST request</error>"]) := by
  refine ⟨?_, ?_, ?_, ?_, ?_, ?_⟩
  · unfold handle_client
    split <;> rfl
  · intro h
    simp [handle_client, h]
  · intro hne hnp
    simp only [handle_client, if_neg hne]
    simp only [process_request, hnp, Bool.false_eq_true, if_false]
    rcases hpd : processDocs parse alert_types start_t end_t now
        (split_xml_documents data) with ⟨eff, exc⟩
    rcases exc with _ | e
    · rfl
    · cases e <;> rfl
  · intro path body hne hp hpp hkeep
    simp only [handle_client, if_neg hne]
    simp only [process_request, hp, if_true]
    simp only [handle_http_post, hpp, hkeep, if_true]
  · intro path body eff hne hp hpp hkeep halarm hok
    simp only [handle_client, if_neg hne]
    simp only [process_request, hp, if_true]
    simp only [handle_http_post, hpp, hkeep, Bool.false_eq_true, if_false,
      halarm, if_true, hok]
  · intro path body hne hp hpp hkeep halarm
    simp only [handle_client, if_neg hne]
    simp only [process_request, hp, if_true]
    simp only [handle_http_post, hpp, hkeep, halarm, Bool.false_eq_true,
      if_false]

/-- Witness for C6 (amended) at a concrete non-POST connection: exactly one
response payload is written. -/
theorem C6_responses_amended_witness :
    (handle_client parseEx ["MOTION"] 0 86340 43200 "hello").1.length = 1 :=
  (C6_responses_amended parseEx ["MOTION"] 0 86340 43200 "hello").2.2.1
    (by decide) rfl

/-! ## C3: the XML Document Splitter -/

/-- Every list is a prefix of itself. -/
theorem isPrefixOf_self (p : List Char) : List.isPrefixOf p p = true := by
  induction p with
  | nil => rfl
  | cons c cs ih => simp [List.isPrefixOf, ih]

/-- A prefix of `a` is a prefix of `a ++ b`. -/
theorem isPrefixOf_append_left (p a b : List Char)
    (h : List.isPrefixOf p a = true) : List.isPrefixOf p (a ++ b) = true := by
  induction p generalizing a with
  | nil => simp [List.isPrefixOf]
  | cons c cs ih =>
    cases a with
    | nil => simp [List.isPrefixOf] at h
    | cons x xs =>
      simp only [List.cons_append, List.isPrefixOf, Bool.and_eq_true] at h ⊢
      exact ⟨h.1, ih xs h.2⟩

/-- A prefix of `a ++ b` no longer than `a` is a prefix of `a`. -/
theorem isPrefixOf_append_bound (p a b : List Char)
    (hl : p.length ≤ a.length)
    (h : List.isPrefixOf p (a ++ b) = true) : List.isPrefixOf p a = true := by
  induction p generalizing a with
  | nil => simp [List.isPrefixOf]
  | cons c cs ih =>
    cases a with
    | nil => simp at hl
    | cons x xs =>
      simp only [List.cons_append, List.isPrefixOf, Bool.and_eq_true] at h ⊢
      simp only [List.length_cons] at hl
      exact ⟨h.1, ih xs (by omega) h.2⟩

/-- Characterization used to compute `findIdx`: if the pattern occurs at
position `k` and at no earlier position, `findIdx` returns `k`. -/
theorem findIdx_first (p : List Char) (hp : p ≠ []) (s : List Char) (k : Nat)
    (hk : List.isPrefixOf p (s.drop k) = true)
    (hmin : ∀ j, j < k → List.isPrefixOf p (s.drop j) = false) :
    findIdx p s = some k := by
  induction s generalizing k with
  | nil =>
    exfalso
    rw [List.drop_nil] at hk
    cases p with
    | nil => exact hp rfl
    | cons c cs => simp [List.isPrefixOf] at hk
  | cons c rest ih =>
    cases k with
    | zero =>
      rw [List.drop_zero] at hk
      simp [findIdx, hk]
    | succ k =>
      have h0 : List.isPrefixOf p (c :: rest) = false := by
        have h := hmin 0 (Nat.succ_pos k)
        rwa [List.drop_zero] at h
      have hk2 : List.isPrefixOf p (rest.drop k) = true := by
        rwa [List.drop_succ_cons] at hk
      have hmin2 : ∀ j, j < k → List.isPrefixOf p (rest.drop j) = false := by
        intro j hj
        have h := hmin (j + 1) (Nat.succ_lt_succ hj)
        rwa [List.drop_succ_cons] at h
      simp [findIdx, h0, ih k hk2 hmin2]

/-- The scan of an empty buffer yields no documents. -/
theorem splitAux_nil (fuel : Nat) : splitAux fuel [] = [] := by
  cases fuel with
  | zero => rfl
  | succ f => simp [splitAux, findIdx]

/-- One document step of the scan: if `L` starts with the declaration, ends
with the closing tag, and contains the closing tag nowhere else, then the
scan of `L ++ R` emits `L` and continues on `R` (whatever `R` is). -/
theorem splitAux_doc_step (L R : List Char) (fuel : Nat)
    (hl : 14 ≤ L.length)
    (hp : List.isPrefixOf xmlDecl L = true)
    (he : L.drop (L.length - 9) = configClose)
    (ho : ∀ q, q < L.length - 9 →
      List.isPrefixOf configClose (L.drop q) = false) :
    splitAux (fuel + 1) (L ++ R) = L :: splitAux fuel R := by
  have hA : findIdx xmlDecl (L ++ R) = some 0 := by
    apply findIdx_first xmlDecl (by decide) (L ++ R) 0
    · rw [List.drop_zero]
      exact isPrefixOf_append_left _ _ _ hp
    · intro j hj
      exact absurd hj (Nat.not_lt_zero j)
  have hB : findIdx configClose ((L ++ R).drop 5) = some (L.length - 14) := by
    apply findIdx_first configClose (by decide) _ (L.length - 14)
    · rw [List.drop_drop]
      have h9 : 5 + (L.length - 14) = L.length - 9 := by omega
      have hz : L.length - 9 - L.length = 0 := by omega
      rw [h9, List.drop_append_eq_append_drop, hz, List.drop_zero, he]
      exact isPrefixOf_append_left _ _ _ (isPrefixOf_self _)
    · intro j hj
      rw [List.drop_drop]
      by_contra hcon
      rw [Bool.not_eq_false] at hcon
      have hz2 : 5 + j - L.length = 0 := by omega
      rw [List.drop_append_eq_append_drop, hz2, List.drop_zero] at hcon
      have hin : List.isPrefixOf configClose (L.drop (5 + j)) = true := by
        apply isPrefixOf_append_bound configClose (L.drop (5 + j)) R _ hcon
        rw [List.length_drop]
        show configClose.length ≤ L.length - (5 + j)
        have h9len : configClose.length = 9 := by decide
        omega
      have hfalse := ho (5 + j) (by omega)
      rw [hin] at hfalse
      exact Bool.true_eq_false.mp hfalse
  have harith : 5 + (L.length - 14) + 9 = L.length := by omega
  simp only [splitAux, hA, List.drop_zero, hB, harith]
  rw [List.take_append_eq_append_take, List.take_length, Nat.sub_self,
    List.take_zero, List.append_nil, List.drop_append_eq_append_drop,
    List.drop_length, Nat.sub_self, List.drop_zero, List.nil_append]

/-- A single well-delimited document scans to exactly itself. -/
theorem splitAux_doc_final (L : List Char) (fuel : Nat)
    (hl : 14 ≤ L.length)
    (hp : List.isPrefixOf xmlDecl L = true)
    (he : L.drop (L.length - 9) = configClose)
    (ho : ∀ q, q < L.length - 9 →
      List.isPrefixOf configClose (L.drop q) = false) :
    splitAux (fuel + 1) L = [L] := by
  have h := splitAux_doc_step L [] fuel hl hp he ho
  rw [List.append_nil] at h
  rw [h, splitAux_nil]

/-- C3 counterexample documents: the first is a well-formed document whose
root `config` element contains a nested `config` child, so its closing tag
is not the first `</config>` occurrence. -/
def docNested : String :=
  "<?xml version=\"1.0\"?><config><config>a</config></config>"

/-- Second well-formed document of the C3 counterexample buffer. -/
def docPlain : String := "<?xml version=\"1.0\"?><config>b</config>"

/-- C3 counterexample: on the buffer holding the two concatenated
well-formed documents `docNested ++ docPlain`, the splitter does return two
substrings, but the first one is cut at the inner `</config>` of the nested
element rather than at the matching closing tag of `docNested`, so it is not
a complete document span. -/
theorem C3_splitter_counterexample :
    split_xml_documents (docNested ++ docPlain) =
      ["<?xml version=\"1.0\"?><config><config>a</config>", docPlain] ∧
    "<?xml version=\"1.0\"?><config><config>a</config>" ≠ docNested := by
  constructor
  · set_option maxRecDepth 1000000 in rfl
  · decide

/-- C3 (amended): for every buffer that is the concatenation of two
documents, each beginning with the declaration `<?xml`, ending with
`</config>`, and containing `</config>` nowhere except as its final nine
characters, the splitter returns exactly the two documents, in order. -/
theorem C3_splitter_amended (d1 d2 : String)
    (hl1 : 14 ≤ d1.data.length) (hl2 : 14 ≤ d2.data.length)
    (hp1 : List.isPrefixOf xmlDecl d1.data = true)
    (hp2 : List.isPrefixOf xmlDecl d2.data = true)
    (he1 : d1.data.drop (d1.data.length - 9) = configClose)
    (he2 : d2.data.drop (d2.data.length - 9) = configClose)
    (ho1 : ∀ q, q < d1.data.length - 9 →
      List.isPrefixOf configClose (d1.data.drop q) = false)
    (ho2 : ∀ q, q < d2.data.length - 9 →
      List.isPrefixOf configClose (d2.data.drop q) = false) :
    split_xml_documents (d1 ++ d2) = [d1, d2] := by
  obtain ⟨L1⟩ := d1
  obtain ⟨L2⟩ := d2
  simp only [String.data] at hl1 hl2 hp1 hp2 he1 he2 ho1 ho2
  have hdata : (String.mk L1 ++ String.mk L2).data = L1 ++ L2 := rfl
  unfold split_xml_documents
  rw [hdata]
  have hpos : 1 ≤ (L1 ++ L2).length := by
    rw [List.length_append]; omega
  obtain ⟨g, hg⟩ : ∃ g, (L1 ++ L2).length = g + 1 :=
    ⟨(L1 ++ L2).length - 1, by omega⟩
  rw [hg]
  rw [splitAux_doc_step L1 L2 (g + 1) hl1 hp1 he1 ho1]
  rw [splitAux_doc_final L2 g hl2 hp2 he2 ho2]
  rfl

/-- Simple well-delimited document used by the C3 witness. -/
def docA : String := "<?xml version=\"1.0\"?><config>a</config>"

/-- Witness for C3 (amended): two concrete well-delimited documents split
back into exactly themselves, in order. -/
theorem C3_splitter_amended_witness :
    split_xml_documents (docA ++ docPlain) = [docA, docPlain] :=
  C3_splitter_amended docA docPlain (by decide) (by decide) (by decide)
    (by decide) (by decide) (by decide) (by decide) (by decide)
